import Mathlib

/-!
Verification development for the reference-frame-relative orbital mechanics
and hyperspace-transition logic of the Pioneer space-flight simulation.

The embedding below is a shallow model of the C++ sources:
  * `src/src/Player.cpp` / `src/src/Player.h` — the maneuver accessors
    (`GetManeuverTime`, `GetManeuverVelocity`), the hyperjump entry points
    (`InitiateHyperjumpTo`, `AbortHyperjump`, `OnEnterHyperspace`,
    `OnEnterSystem`) and target invalidation (`NotifyRemoved`);
  * `src/src/lua/LuaBody.cpp` — `l_body_get_altitude_rel_to` and
    `l_body_is_more_important_than`.

Machine doubles are modelled as exact rationals; the claims settled here are
about control flow and which values are combined, not floating-point rounding.
Pointer identity of bodies is modelled by stable natural-number identifiers.
-/

set_option autoImplicit false

namespace Pioneer

/-- Shallow model of `vector3d`: a triple of rationals standing in for the
three doubles. `ExactlyEqual` in the C++ is componentwise exact equality,
which is decidable equality here. -/
structure vector3d where
  x : ℚ
  y : ℚ
  z : ℚ
deriving DecidableEq, Repr

/-- Componentwise subtraction, as `vector3d::operator-` does. -/
instance : Sub vector3d :=
  ⟨fun a b => ⟨a.x - b.x, a.y - b.y, a.z - b.z⟩⟩

/-- The zero vector `vector3d(0, 0, 0)`. -/
def vector3d.zero : vector3d := ⟨0, 0, 0⟩

/-- Shallow model of `SystemBody` restricted to the one field the maneuver
code reads: `GetMass()`. -/
structure SystemBody where
  mass : ℚ
deriving DecidableEq, Repr

/-- Shallow model of a `Frame` as read by `Player::GetManeuverVelocity`:
`IsRotFrame()`, `GetNonRotFrame()` (the id of the associated non-rotating
frame) and `GetSystemBody()` (which may be null). -/
structure Frame where
  isRotFrame : Bool
  nonRotFrame : Nat
  systemBody : Option SystemBody

/-- Shallow model of the `Orbit` returned by `Ship::ComputeOrbit`. The class
body is not under `src/`; only the members the excerpted code calls are
modelled, the two anomaly solvers as opaque function fields (their numeric
content is irrelevant to the claims, which are about how
`Player::GetManeuverVelocity` composes them). -/
structure Orbit where
  semiMajorAxis : ℚ
  orbitalVelocityAtTime : ℚ → ℚ → vector3d
  orbitalTimeAtPos : vector3d → ℚ → ℚ

/-- Shallow model of the `Pi::planner` (`TransferPlanner`) accessors used by
`Player::GetManeuverTime` / `Player::GetManeuverVelocity`: `GetOffsetVel`,
`GetStartTime` (consumed through an `int` return), `GetVel`, `GetPosition`.
The planner lives outside the excerpt, so its fields are free state here. -/
structure TransferPlanner where
  offsetVel : vector3d
  startTime : Int
  vel : vector3d
  position : vector3d

/-- The state `Player::GetManeuverTime` / `GetManeuverVelocity` read: the
vehicle's current frame id, the frame registry (`Frame::GetFrame`, total here
since the C++ dereferences unconditionally), the transfer planner, and the
osculating orbit `ComputeOrbit()` would return for the current state. -/
structure ManeuverState where
  frameId : Nat
  frames : Nat → Frame
  planner : TransferPlanner
  computeOrbit : Orbit

/-- Model of `is_zero_exact` from the support library (not under `src/`):
an exact comparison of the double against zero, exact equality on ℚ here. -/
def is_zero_exact (q : ℚ) : Bool := decide (q = 0)

/-- Shallow embedding of `Player::GetManeuverTime` (Player.cpp:342-348):
returns 0 when the planner's offset velocity is exactly the zero vector,
otherwise the planner's start time. -/
def GetManeuverTime (s : ManeuverState) : Int :=
  if s.planner.offsetVel = vector3d.zero then 0
  else s.planner.startTime

/-- Shallow embedding of `Player::GetManeuverVelocity` (Player.cpp:350-369):
resolve the current frame (through `GetNonRotFrame` when rotating), then
return zero for a zero offset, a null system body, or an exactly-zero
semi-major axis, and otherwise the planner's velocity minus the orbital
velocity at the orbital time of the planner's position. -/
def GetManeuverVelocity (s : ManeuverState) : vector3d :=
  let frame0 := s.frames s.frameId
  let frame := if frame0.isRotFrame then s.frames frame0.nonRotFrame else frame0
  if s.planner.offsetVel = vector3d.zero then
    vector3d.zero
  else
    match frame.systemBody with
    | some systemBody =>
        let playerOrbit := s.computeOrbit
        if is_zero_exact playerOrbit.semiMajorAxis then
          vector3d.zero
        else
          let mass := systemBody.mass
          s.planner.vel -
            playerOrbit.orbitalVelocityAtTime mass
              (playerOrbit.orbitalTimeAtPos s.planner.position mass)
    | none => vector3d.zero

/-- The frame `GetManeuverVelocity` actually reads the system body from:
the current frame itself when non-rotating, else its non-rotating frame. -/
def resolveNonRotFrame (s : ManeuverState) : Frame :=
  let frame0 := s.frames s.frameId
  if frame0.isRotFrame then s.frames frame0.nonRotFrame else frame0

/-- The maneuver-velocity computation with the gravitating mass supplied
directly, used to state which mass `GetManeuverVelocity` consumes. -/
def maneuverVelocityWithMass (s : ManeuverState) (mass : ℚ) : vector3d :=
  if s.planner.offsetVel = vector3d.zero then
    vector3d.zero
  else if is_zero_exact s.computeOrbit.semiMajorAxis then
    vector3d.zero
  else
    s.planner.vel -
      s.computeOrbit.orbitalVelocityAtTime mass
        (s.computeOrbit.orbitalTimeAtPos s.planner.position mass)

/-- States of the hyperjump state machine (spec section 4.4):
IDLE, WARMUP, COMMITTED, TRANSIT, ARRIVING (ABORTED is transient and
immediately returns to IDLE). -/
inductive HyperState
  | IDLE
  | WARMUP
  | COMMITTED
  | TRANSIT
  | ARRIVING
deriving DecidableEq, Repr

/-- Flight control states of `PlayerShipController`; the excerpted code only
ever writes `CONTROL_MANUAL`, the others stand for any non-manual mode. -/
inductive FlightControlState
  | CONTROL_MANUAL
  | CONTROL_FIXSPEED
  | CONTROL_FIXHEADING
  | CONTROL_AUTOPILOT
deriving DecidableEq, Repr

/-- Body type tags, as tested by `Body::IsType`. Only `SHIP` is branched on
in the excerpted code (`Player::NotifyRemoved`). -/
inductive ObjectType
  | SHIP
  | HYPERSPACECLOUD
  | TERRAINBODY
  | OTHER
deriving DecidableEq, Repr

/-- Shallow model of a `Body` as consumed by `Player::NotifyRemoved`:
pointer identity becomes a stable id, `IsType(ObjectType::SHIP)` reads the
type tag, and `Ship::GetHyperspaceCloud()` is the (possibly null) id of the
ship's hyperspace cloud. A distinct heap object, the cloud can never alias
the ship itself; theorems carry that as an explicit hypothesis. -/
structure Body where
  id : Nat
  objType : ObjectType
  hyperspaceCloud : Option Nat
deriving DecidableEq, Repr

/-- The vehicle-level state read and written by the hyperjump entry points
and by target invalidation: the hyperjump machine state and recorded jump
parameters, the three weak target references held by
`PlayerShipController` (body ids), the flight control state, the thruster
state (cleared by `Ship::ClearThrusterState`), the frame membership, the
`Pi::game->WantHyperspace()` flag and the sector view's hyperspace target. -/
structure ShipState where
  hyperState : HyperState
  hyperspaceDest : Option Nat
  warmupDuration : Int
  transitDuration : ℚ
  navTarget : Option Nat
  combatTarget : Option Nat
  setSpeedTarget : Option Nat
  flightControl : FlightControlState
  thrusterState : vector3d
  frame : Option Nat
  wantHyperspace : Bool
  sectorHyperspaceTarget : Option Nat
deriving DecidableEq, Repr

/-- Rejection outcomes of the hyperjump entry points (spec section 4.4 and
section 7): a precondition violation (wrong machine state), or an
eligibility rejection carrying a structured reason. -/
inductive HyperjumpErr
  | precondition
  | rejected (reason : String)
deriving DecidableEq, Repr

/-- First failing eligibility check in order, as the spec's ordered sequence
of predicate closures: `none` when all pass. -/
def firstFailingCheck (s : ShipState) :
    List (ShipState → Option String) → Option String
  | [] => none
  | c :: rest =>
      match c s with
      | some reason => some reason
      | none => firstFailingCheck s rest

/-- Modelled from the spec: `Ship::InitiateHyperjumpTo` is not under `src/`.
Per spec section 4.4, it is valid only from IDLE (else a precondition
violation), runs the eligibility checks in order with the first failure
rejecting the call and leaving the state unchanged, and on success
transitions to WARMUP recording the jump parameters. It has no access to the
Player-level navigation/combat/set-speed targets: those setters are declared
only on `Player` (src/src/Player.h) and the only sites in `src/` that clear
them are `Player::NotifyRemoved` and `Player::OnEnterHyperspace`. -/
def Ship.InitiateHyperjumpTo (s : ShipState) (dest : Nat) (warmup_time : Int)
    (duration : ℚ) (checks : List (ShipState → Option String)) :
    Except HyperjumpErr ShipState :=
  if s.hyperState ≠ HyperState.IDLE then
    Except.error HyperjumpErr.precondition
  else
    match firstFailingCheck s checks with
    | some reason => Except.error (HyperjumpErr.rejected reason)
    | none =>
        Except.ok { s with
          hyperState := HyperState.WARMUP
          hyperspaceDest := some dest
          warmupDuration := warmup_time
          transitDuration := duration }

/-- Shallow embedding of `Player::InitiateHyperjumpTo` (Player.cpp:274-282):
delegates to `Ship::InitiateHyperjumpTo` and returns its status unchanged.
The only additional effect in the source is playing the warmup sound on
success, a presentation side effect outside the core. -/
def Player.InitiateHyperjumpTo (s : ShipState) (dest : Nat) (warmup_time : Int)
    (duration : ℚ) (checks : List (ShipState → Option String)) :
    Except HyperjumpErr ShipState :=
  Ship.InitiateHyperjumpTo s dest warmup_time duration checks

/-- Modelled from the spec: `Ship::AbortHyperjump` is not under `src/`. Per
spec section 4.4, abort is valid from WARMUP only (else a precondition
violation) and transitions back to IDLE; the vehicle's frame membership is
untouched since it was never detached. -/
def Ship.AbortHyperjump (s : ShipState) : Except HyperjumpErr ShipState :=
  if s.hyperState ≠ HyperState.WARMUP then
    Except.error HyperjumpErr.precondition
  else
    Except.ok { s with hyperState := HyperState.IDLE }

/-- Shallow embedding of `Player::AbortHyperjump` (Player.cpp:284-288):
plays the abort sound (presentation, outside the core) and delegates to
`Ship::AbortHyperjump`. -/
def Player.AbortHyperjump (s : ShipState) : Except HyperjumpErr ShipState :=
  Ship.AbortHyperjump s

/-- Shallow embedding of `Ship::ClearThrusterState`: zeroes the directional
thrust control. -/
def Ship.ClearThrusterState (s : ShipState) : ShipState :=
  { s with thrusterState := vector3d.zero }

/-- Shallow embedding of `Player::OnEnterHyperspace` (Player.cpp:212-222):
clears the navigation, combat and set-speed targets, sets flight control to
`CONTROL_MANUAL`, clears the thruster state and requests the hyperspace
switch (`Pi::game->WantHyperspace()`). The jump sound is presentation. -/
def Player.OnEnterHyperspace (s : ShipState) : ShipState :=
  Ship.ClearThrusterState
    { s with
      navTarget := none
      combatTarget := none
      setSpeedTarget := none
      flightControl := FlightControlState.CONTROL_MANUAL
      wantHyperspace := true }

/-- Shallow embedding of `Player::OnEnterSystem` (Player.cpp:224-229): sets
flight control to `CONTROL_MANUAL` and resets the sector view's hyperspace
target. No other field is touched: the targets are not cleared here and the
frame membership is not modified by this function. -/
def Player.OnEnterSystem (s : ShipState) : ShipState :=
  { s with
    flightControl := FlightControlState.CONTROL_MANUAL
    sectorHyperspaceTarget := none }

/-- Shallow embedding of `Player::NotifyRemoved` (Player.cpp:193-209): nil
out the navigation target if it is the removed body; nil out the combat
target if it is the removed body and, when the navigation target is then
null and the removed body is a ship, retarget navigation at the ship's
hyperspace cloud; nil out the set-speed target if it is the removed body.
The trailing `Ship::NotifyRemoved` call (base class, not under `src/`) has
no access to these Player-level target fields. -/
def Player.NotifyRemoved (s : ShipState) (removedBody : Body) : ShipState :=
  let s1 :=
    if s.navTarget = some removedBody.id then { s with navTarget := none }
    else s
  let s2 :=
    if s1.combatTarget = some removedBody.id then
      let s2a := { s1 with combatTarget := none }
      if s2a.navTarget = none ∧ removedBody.objType = ObjectType.SHIP then
        { s2a with navTarget := removedBody.hyperspaceCloud }
      else s2a
    else s1
  if s2.setSpeedTarget = some removedBody.id then
    { s2 with setSpeedTarget := none }
  else s2

/-- The second argument of `l_body_get_altitude_rel_to` as the code reads
it: either a terrain body, with its `GetMaxFeatureRadius()` and the terrain
height `GetTerrainHeight(pos.Normalized())` sampled at the player's
direction, or a non-terrain body. The Euclidean norm of the relative
position and the sampled height are irrational-valued in general, so they
enter the model as rational parameters rather than being recomputed from a
vector. -/
inductive AltitudeOther
  | terrain (maxFeatureRadius heightSample : ℚ)
  | nonTerrain
deriving DecidableEq, Repr

/-- Shallow embedding of `l_body_get_altitude_rel_to`
(LuaBody.cpp:303-324). `center_dist` stands for `pos.Length()`, the norm of
the player's position relative to the other body (hence nonnegative in any
run; theorems carry that as a hypothesis). For a terrain body the terrain
height is used as the radius only when `center_dist` is at most three times
the maximum feature radius, the altitude is the center distance minus that
radius, clamped below at zero; for any other body the center distance is
returned as is. -/
def l_body_get_altitude_rel_to (center_dist : ℚ) (other : AltitudeOther) : ℚ :=
  match other with
  | AltitudeOther.terrain maxFeatureRadius heightSample =>
      let radius :=
        if center_dist ≤ 3 * maxFeatureRadius then heightSample else 0
      let altitude := center_dist - radius
      if altitude < 0 then 0 else altitude
  | AltitudeOther.nonTerrain => center_dist

/-- Shallow embedding of `l_body_is_more_important_than`
(LuaBody.cpp:237-253). Bodies are compared by pointer identity, modelled by
their ids; when the two are the same body the result is `false` without
consulting the external comparison `PiGui::first_body_is_more_important_than`
(here an opaque parameter `cmp`). -/
def l_body_is_more_important_than (cmp : Nat → Nat → Bool)
    (body other : Nat) : Bool :=
  if body = other then false
  else cmp body other

/-! ## Concrete states used by witnesses and counterexamples -/

/-- A maneuver state whose planner offset is exactly zero but whose every
other component is nontrivial (rotating frame, system body present,
nondegenerate orbit, nonzero start time). -/
def mstateC1 : ManeuverState :=
  { frameId := 0
    frames := fun _ =>
      { isRotFrame := true, nonRotFrame := 1, systemBody := some { mass := 5 } }
    planner :=
      { offsetVel := vector3d.zero, startTime := 42
        vel := ⟨1, 2, 3⟩, position := ⟨4, 5, 6⟩ }
    computeOrbit :=
      { semiMajorAxis := 2
        orbitalVelocityAtTime := fun _ _ => ⟨9, 9, 9⟩
        orbitalTimeAtPos := fun _ _ => 3 } }

/-- A maneuver state with a nonzero offset, a non-rotating frame owning a
system body of mass 5, and a nondegenerate orbit with simple closed-form
anomaly solvers, so the maneuver velocity is computable by evaluation. -/
def mstateC4 : ManeuverState :=
  { frameId := 0
    frames := fun _ =>
      { isRotFrame := false, nonRotFrame := 0, systemBody := some { mass := 5 } }
    planner :=
      { offsetVel := ⟨1, 0, 0⟩, startTime := 7
        vel := ⟨10, 20, 30⟩, position := ⟨4, 0, 0⟩ }
    computeOrbit :=
      { semiMajorAxis := 2
        orbitalVelocityAtTime := fun mass t => ⟨mass, t, 0⟩
        orbitalTimeAtPos := fun pos mass => pos.x + mass } }

/-- A maneuver state with a nonzero offset and a degenerate orbit (exactly
zero semi-major axis) whose planner records start time 5. -/
def mstateC5 : ManeuverState :=
  { frameId := 0
    frames := fun _ =>
      { isRotFrame := false, nonRotFrame := 0, systemBody := some { mass := 3 } }
    planner :=
      { offsetVel := ⟨1, 0, 0⟩, startTime := 5
        vel := ⟨0, 0, 0⟩, position := ⟨0, 0, 0⟩ }
    computeOrbit :=
      { semiMajorAxis := 0
        orbitalVelocityAtTime := fun _ _ => vector3d.zero
        orbitalTimeAtPos := fun _ _ => 0 } }

/-- A maneuver state whose current frame 0 is rotating with non-rotating
frame 1; frame 1 owns a system body of mass 7 while frame 0 owns one of
mass 100, so the two candidate masses disagree. -/
def mstateC6 : ManeuverState :=
  { frameId := 0
    frames := fun i =>
      if i = 0 then
        { isRotFrame := true, nonRotFrame := 1, systemBody := some { mass := 100 } }
      else
        { isRotFrame := false, nonRotFrame := 1, systemBody := some { mass := 7 } }
    planner :=
      { offsetVel := ⟨0, 1, 0⟩, startTime := 3
        vel := ⟨1, 1, 1⟩, position := ⟨2, 0, 0⟩ }
    computeOrbit :=
      { semiMajorAxis := 4
        orbitalVelocityAtTime := fun mass t => ⟨mass, t, 1⟩
        orbitalTimeAtPos := fun pos mass => pos.x * mass } }

/-- An idle ship with all three targets set, active thrusters, autopilot
engaged and a frame membership, about to initiate a hyperjump. -/
def shipC2 : ShipState :=
  { hyperState := HyperState.IDLE
    hyperspaceDest := none
    warmupDuration := 0
    transitDuration := 0
    navTarget := some 3
    combatTarget := some 4
    setSpeedTarget := some 5
    flightControl := FlightControlState.CONTROL_AUTOPILOT
    thrusterState := ⟨1, 0, 0⟩
    frame := some 11
    wantHyperspace := false
    sectorHyperspaceTarget := some 9 }

/-- The state `shipC2` reaches after a successful initiation with
destination 9, warmup 5 and transit duration 10. -/
def shipC2warm : ShipState :=
  { shipC2 with
    hyperState := HyperState.WARMUP
    hyperspaceDest := some 9
    warmupDuration := 5
    transitDuration := 10 }

/-- An arriving ship that still carries (stale-looking) target references,
used against `Player::OnEnterSystem`. -/
def shipC3 : ShipState :=
  { hyperState := HyperState.ARRIVING
    hyperspaceDest := some 9
    warmupDuration := 5
    transitDuration := 10
    navTarget := some 3
    combatTarget := some 4
    setSpeedTarget := some 5
    flightControl := FlightControlState.CONTROL_FIXSPEED
    thrusterState := ⟨0, 2, 0⟩
    frame := some 12
    wantHyperspace := false
    sectorHyperspaceTarget := some 9 }

/-- A ship mid-warmup, used for the precondition-contract witness. -/
def shipC7 : ShipState :=
  { hyperState := HyperState.WARMUP
    hyperspaceDest := some 9
    warmupDuration := 3
    transitDuration := 7
    navTarget := none
    combatTarget := none
    setSpeedTarget := none
    flightControl := FlightControlState.CONTROL_MANUAL
    thrusterState := vector3d.zero
    frame := some 4
    wantHyperspace := false
    sectorHyperspaceTarget := none }

/-- A ship whose every target points at body 2, used against
`Player::NotifyRemoved`. -/
def shipC8 : ShipState :=
  { hyperState := HyperState.IDLE
    hyperspaceDest := none
    warmupDuration := 0
    transitDuration := 0
    navTarget := some 2
    combatTarget := some 2
    setSpeedTarget := some 2
    flightControl := FlightControlState.CONTROL_MANUAL
    thrusterState := vector3d.zero
    frame := some 1
    wantHyperspace := false
    sectorHyperspaceTarget := none }

/-- The removed body for the `NotifyRemoved` witness: a ship with id 2
whose hyperspace cloud is the distinct body 7. -/
def bodyC8 : Body :=
  { id := 2, objType := ObjectType.SHIP, hyperspaceCloud := some 7 }

/-! ## Claims -/

/-- C1: for every vehicle state, if the planner's stored desired velocity
offset is exactly the zero vector, then `GetManeuverTime` returns 0 and
`GetManeuverVelocity` returns the zero vector (the canonical
"no maneuver planned" sentinel), regardless of the vehicle's frame, orbit,
or any other state. -/
theorem zero_offset_is_no_maneuver_sentinel (s : ManeuverState)
    (h : s.planner.offsetVel = vector3d.zero) :
    GetManeuverTime s = 0 ∧ GetManeuverVelocity s = vector3d.zero := by
  constructor
  · simp [GetManeuverTime, h]
  · simp [GetManeuverVelocity, h]

/-- C1 witness: the sentinel at a concrete state with a rotating frame, a
present system body, a nondegenerate orbit and a nonzero start time. -/
theorem zero_offset_is_no_maneuver_sentinel_witness :
    GetManeuverTime mstateC1 = 0 ∧ GetManeuverVelocity mstateC1 = vector3d.zero :=
  zero_offset_is_no_maneuver_sentinel mstateC1 rfl

/-- C4: for every vehicle state with a non-zero desired velocity offset, a
resolved frame owning a system body, and a non-degenerate osculating orbit,
the maneuver velocity equals the planner's stored target velocity minus the
orbital velocity evaluated at the time-of-flight from the current orbit to
the planner's stored target position. -/
theorem maneuver_velocity_formula (s : ManeuverState) (sb : SystemBody)
    (hoff : s.planner.offsetVel ≠ vector3d.zero)
    (hsb : (resolveNonRotFrame s).systemBody = some sb)
    (hsma : s.computeOrbit.semiMajorAxis ≠ 0) :
    GetManeuverVelocity s =
      s.planner.vel -
        s.computeOrbit.orbitalVelocityAtTime sb.mass
          (s.computeOrbit.orbitalTimeAtPos s.planner.position sb.mass) := by
  have hrs := hsb
  simp only [resolveNonRotFrame] at hrs
  by_cases hrot : (s.frames s.frameId).isRotFrame = true
  · simp only [hrot, if_true] at hrs
    simp [GetManeuverVelocity, hrot, hoff, hrs, is_zero_exact, hsma]
  · simp only [Bool.not_eq_true] at hrot
    simp only [hrot, Bool.false_eq_true, if_false] at hrs
    simp [GetManeuverVelocity, hrot, hoff, hrs, is_zero_exact, hsma]

/-- C4 witness: the formula evaluated at `mstateC4`, where it yields
(10,20,30) - (5, 4+5, 0). -/
theorem maneuver_velocity_formula_witness :
    GetManeuverVelocity mstateC4 =
      mstateC4.planner.vel -
        mstateC4.computeOrbit.orbitalVelocityAtTime (5 : ℚ)
          (mstateC4.computeOrbit.orbitalTimeAtPos mstateC4.planner.position (5 : ℚ)) :=
  maneuver_velocity_formula mstateC4 { mass := 5 } (by decide) rfl (by norm_num [mstateC4])

/-- C5 counterexample: at `mstateC5` the desired offset is nonzero and the
orbit is degenerate (zero semi-major axis); `GetManeuverVelocity` does fall
back to the zero vector, but `GetManeuverTime` returns the planner's start
time 5, not 0 — the time accessor never inspects the orbit, so the claim
that it returns 0 for a degenerate orbit is false. -/
theorem degenerate_orbit_zero_time_counterexample :
    mstateC5.planner.offsetVel ≠ vector3d.zero ∧
    mstateC5.computeOrbit.semiMajorAxis = 0 ∧
    GetManeuverVelocity mstateC5 = vector3d.zero ∧
    GetManeuverTime mstateC5 = 5 ∧
    GetManeuverTime mstateC5 ≠ 0 := by
  refine ⟨by decide, rfl, rfl, rfl, by decide⟩

/-- C5 (amended): for every vehicle state with a non-zero desired velocity
offset and a degenerate osculating orbit (exactly-zero semi-major axis, the
`is_zero_exact` test), `GetManeuverVelocity` returns the zero vector as a
defined fallback — no numeric fault — while `GetManeuverTime`, which never
consults the orbit, returns the planner's stored start time. -/
theorem degenerate_orbit_fallback (s : ManeuverState)
    (hoff : s.planner.offsetVel ≠ vector3d.zero)
    (hsma : s.computeOrbit.semiMajorAxis = 0) :
    GetManeuverVelocity s = vector3d.zero ∧
    GetManeuverTime s = s.planner.startTime := by
  constructor
  · simp only [GetManeuverVelocity]
    rw [if_neg hoff]
    split
    · simp [is_zero_exact, hsma]
    · rfl
  · simp [GetManeuverTime, hoff]

/-- C5 (amended) witness: the fallback at `mstateC5`, whose start time
is 5. -/
theorem degenerate_orbit_fallback_witness :
    GetManeuverVelocity mstateC5 = vector3d.zero ∧
    GetManeuverTime mstateC5 = mstateC5.planner.startTime :=
  degenerate_orbit_fallback mstateC5 (by decide) rfl

/-- C6: the maneuver-velocity computation takes its gravitating mass from
the system body of the resolved frame: for a vehicle in a rotating frame,
from the body owning that frame's non-rotating frame; for a vehicle already
in a non-rotating frame, from that frame's own system body. -/
theorem maneuver_mass_from_resolved_frame (s : ManeuverState) (sb : SystemBody) :
    ((s.frames s.frameId).isRotFrame = true →
      (s.frames (s.frames s.frameId).nonRotFrame).systemBody = some sb →
      GetManeuverVelocity s = maneuverVelocityWithMass s sb.mass) ∧
    ((s.frames s.frameId).isRotFrame = false →
      (s.frames s.frameId).systemBody = some sb →
      GetManeuverVelocity s = maneuverVelocityWithMass s sb.mass) := by
  constructor
  · intro hrot hsb
    simp only [GetManeuverVelocity, maneuverVelocityWithMass, hrot, if_true, hsb]
  · intro hrot hsb
    simp only [GetManeuverVelocity, maneuverVelocityWithMass, hrot,
      Bool.false_eq_true, if_false, hsb]

/-- C6 witness: at `mstateC6` the current frame 0 is rotating and resolves
to frame 1, whose body has mass 7 (frame 0 itself owns a body of mass 100);
the computation uses mass 7. -/
theorem maneuver_mass_from_resolved_frame_witness :
    GetManeuverVelocity mstateC6 = maneuverVelocityWithMass mstateC6 (7 : ℚ) :=
  (maneuver_mass_from_resolved_frame mstateC6 { mass := 7 }).1 rfl rfl

/-- C2 counterexample: initiating a hyperjump from the concrete idle state
`shipC2` (all three targets set, thrusters firing) succeeds and transitions
to WARMUP, yet every target and the thruster state survive unchanged —
nothing is cleared at the initiation step. The clearing the claim describes
sits in `Player::OnEnterHyperspace`, which fires at the actual entry into
hyperspace, not in `Player::InitiateHyperjumpTo`. -/
theorem initiate_does_not_clear_targets_counterexample :
    Player.InitiateHyperjumpTo shipC2 9 5 10 [] = Except.ok shipC2warm ∧
    shipC2warm.hyperState = HyperState.WARMUP ∧
    shipC2warm.navTarget = some 3 ∧
    shipC2warm.combatTarget = some 4 ∧
    shipC2warm.setSpeedTarget = some 5 ∧
    shipC2warm.thrusterState ≠ vector3d.zero := by
  refine ⟨rfl, rfl, rfl, rfl, rfl, by decide⟩

/-- C2 (amended): a successful hyperjump initiation transitions to WARMUP
but leaves the vehicle's navigation, combat and set-speed targets and its
thruster state unchanged; the clearing of all three targets, the reset of
flight control to manual and the zeroing of the thrusters happen at the
entry into hyperspace (`Player::OnEnterHyperspace`), not at initiation. -/
theorem initiate_preserves_targets_enter_clears (s : ShipState) (dest : Nat)
    (w : Int) (d : ℚ) (checks : List (ShipState → Option String)) (s2 : ShipState)
    (hok : Player.InitiateHyperjumpTo s dest w d checks = Except.ok s2) :
    (s2.hyperState = HyperState.WARMUP ∧
      s2.navTarget = s.navTarget ∧
      s2.combatTarget = s.combatTarget ∧
      s2.setSpeedTarget = s.setSpeedTarget ∧
      s2.thrusterState = s.thrusterState) ∧
    ((Player.OnEnterHyperspace s2).navTarget = none ∧
      (Player.OnEnterHyperspace s2).combatTarget = none ∧
      (Player.OnEnterHyperspace s2).setSpeedTarget = none ∧
      (Player.OnEnterHyperspace s2).thrusterState = vector3d.zero ∧
      (Player.OnEnterHyperspace s2).flightControl =
        FlightControlState.CONTROL_MANUAL) := by
  refine ⟨?_, rfl, rfl, rfl, rfl, rfl⟩
  simp only [Player.InitiateHyperjumpTo, Ship.InitiateHyperjumpTo] at hok
  by_cases hidle : s.hyperState = HyperState.IDLE
  · simp only [hidle, ne_eq, not_true_eq_false, if_false, reduceIte] at hok
    rcases hfc : firstFailingCheck s checks with _ | reason
    · rw [hfc] at hok
      cases hok
      exact ⟨rfl, rfl, rfl, rfl, rfl⟩
    · rw [hfc] at hok
      cases hok
  · rw [if_pos hidle] at hok
    cases hok

/-- C2 (amended) witness: the preserved targets and the later clearing at
the concrete initiation from `shipC2`. -/
theorem initiate_preserves_targets_enter_clears_witness :
    (shipC2warm.hyperState = HyperState.WARMUP ∧
      shipC2warm.navTarget = shipC2.navTarget ∧
      shipC2warm.combatTarget = shipC2.combatTarget ∧
      shipC2warm.setSpeedTarget = shipC2.setSpeedTarget ∧
      shipC2warm.thrusterState = shipC2.thrusterState) ∧
    ((Player.OnEnterHyperspace shipC2warm).navTarget = none ∧
      (Player.OnEnterHyperspace shipC2warm).combatTarget = none ∧
      (Player.OnEnterHyperspace shipC2warm).setSpeedTarget = none ∧
      (Player.OnEnterHyperspace shipC2warm).thrusterState = vector3d.zero ∧
      (Player.OnEnterHyperspace shipC2warm).flightControl =
        FlightControlState.CONTROL_MANUAL) :=
  initiate_preserves_targets_enter_clears shipC2 9 5 10 [] shipC2warm rfl

/-- C3 counterexample: running `Player::OnEnterSystem` on the concrete
arriving state `shipC3` leaves all three targets set and the frame
membership untouched — the arrival hook does not re-clear the
navigation/combat/set-speed targets and does not itself re-attach the
vehicle to any frame. -/
theorem on_enter_system_counterexample :
    (Player.OnEnterSystem shipC3).navTarget = some 3 ∧
    (Player.OnEnterSystem shipC3).combatTarget = some 4 ∧
    (Player.OnEnterSystem shipC3).setSpeedTarget = some 5 ∧
    (Player.OnEnterSystem shipC3).frame = shipC3.frame ∧
    (some 3 : Option Nat) ≠ none := by
  refine ⟨rfl, rfl, rfl, rfl, by decide⟩

/-- C3 (amended): on hyperspace arrival `Player::OnEnterSystem` resets the
flight control state to manual and resets the stored sector-view hyperspace
target; it leaves the navigation, combat and set-speed targets and the
vehicle's frame membership unchanged (the targets were already cleared at
hyperspace entry, and frame re-attachment is performed outside this
function). -/
theorem on_enter_system_behavior (s : ShipState) :
    (Player.OnEnterSystem s).flightControl = FlightControlState.CONTROL_MANUAL ∧
    (Player.OnEnterSystem s).sectorHyperspaceTarget = none ∧
    (Player.OnEnterSystem s).navTarget = s.navTarget ∧
    (Player.OnEnterSystem s).combatTarget = s.combatTarget ∧
    (Player.OnEnterSystem s).setSpeedTarget = s.setSpeedTarget ∧
    (Player.OnEnterSystem s).frame = s.frame :=
  ⟨rfl, rfl, rfl, rfl, rfl, rfl⟩

/-- C7: initiating while the machine is in any state other than IDLE
(WARMUP, COMMITTED, TRANSIT, ARRIVING) is rejected with a precondition
error; aborting while in any state other than WARMUP (IDLE, COMMITTED,
TRANSIT, ARRIVING) is rejected with a precondition error; aborting while
WARMUP transitions to IDLE and leaves the vehicle's frame membership
unchanged. -/
theorem hyperjump_precondition_contract (s : ShipState) (dest : Nat)
    (w : Int) (d : ℚ) (checks : List (ShipState → Option String)) :
    (s.hyperState ≠ HyperState.IDLE →
      Player.InitiateHyperjumpTo s dest w d checks =
        Except.error HyperjumpErr.precondition) ∧
    (s.hyperState ≠ HyperState.WARMUP →
      Player.AbortHyperjump s = Except.error HyperjumpErr.precondition) ∧
    (s.hyperState = HyperState.WARMUP →
      ∀ s2 : ShipState, Player.AbortHyperjump s = Except.ok s2 →
        s2.hyperState = HyperState.IDLE ∧ s2.frame = s.frame) := by
  refine ⟨?_, ?_, ?_⟩
  · intro h
    simp only [Player.InitiateHyperjumpTo, Ship.InitiateHyperjumpTo, if_pos h]
  · intro h
    simp only [Player.AbortHyperjump, Ship.AbortHyperjump, if_pos h]
  · intro h s2 habort
    simp only [Player.AbortHyperjump, Ship.AbortHyperjump, h, ne_eq,
      not_true_eq_false, if_false, reduceIte, Except.ok.injEq] at habort
    subst habort
    exact ⟨rfl, rfl⟩

/-- C7 witness: initiation from the concrete warmup state `shipC7` (not
IDLE) is rejected with the precondition error; abort from the concrete idle
state `shipC2` (not WARMUP) is rejected with the precondition error; and
abort from `shipC7` lands in IDLE with the frame membership (frame 4)
intact. -/
theorem hyperjump_precondition_contract_witness :
    Player.InitiateHyperjumpTo shipC7 0 5 10 [] =
      Except.error HyperjumpErr.precondition ∧
    Player.AbortHyperjump shipC2 = Except.error HyperjumpErr.precondition ∧
    ({ shipC7 with hyperState := HyperState.IDLE } : ShipState).hyperState =
      HyperState.IDLE ∧
    ({ shipC7 with hyperState := HyperState.IDLE } : ShipState).frame =
      shipC7.frame := by
  have h := hyperjump_precondition_contract shipC7 0 5 10 []
  have h2 := hyperjump_precondition_contract shipC2 0 5 10 []
  exact ⟨h.1 (by decide), h2.2.1 (by decide),
    (h.2.2 rfl _ rfl).1, (h.2.2 rfl _ rfl).2⟩

/-- C8: after `Player::NotifyRemoved` runs for a removed body, none of the
navigation, combat or set-speed target references equals that body — any
reference that pointed at it has been invalidated. The hypothesis records
that a ship's hyperspace cloud is a distinct heap object from the ship
itself. -/
theorem notify_removed_invalidates_targets (s : ShipState) (b : Body)
    (hcloud : b.hyperspaceCloud ≠ some b.id) :
    (Player.NotifyRemoved s b).navTarget ≠ some b.id ∧
    (Player.NotifyRemoved s b).combatTarget ≠ some b.id ∧
    (Player.NotifyRemoved s b).setSpeedTarget ≠ some b.id := by
  simp only [Player.NotifyRemoved]
  split_ifs <;> simp_all

/-- C8 witness: body 2 (a ship whose cloud is body 7) removed from a state
whose three targets all point at body 2. -/
theorem notify_removed_invalidates_targets_witness :
    (Player.NotifyRemoved shipC8 bodyC8).navTarget ≠ some bodyC8.id ∧
    (Player.NotifyRemoved shipC8 bodyC8).combatTarget ≠ some bodyC8.id ∧
    (Player.NotifyRemoved shipC8 bodyC8).setSpeedTarget ≠ some bodyC8.id :=
  notify_removed_invalidates_targets shipC8 bodyC8 (by decide)

/-- C9: `GetAltitudeRelTo` never returns a negative value: given the
nonnegative center distance, a terrain body's altitude (center distance
minus the terrain height, the height taken as 0 once the center distance
exceeds three times the maximum feature radius) is clamped below at 0, and
a non-terrain body returns the center distance itself. -/
theorem get_altitude_rel_to_nonneg (center_dist : ℚ) (other : AltitudeOther)
    (h : 0 ≤ center_dist) :
    0 ≤ l_body_get_altitude_rel_to center_dist other ∧
    l_body_get_altitude_rel_to center_dist AltitudeOther.nonTerrain = center_dist ∧
    (∀ maxFeatureRadius heightSample : ℚ, 3 * maxFeatureRadius < center_dist →
      l_body_get_altitude_rel_to center_dist
        (AltitudeOther.terrain maxFeatureRadius heightSample) = center_dist) := by
  refine ⟨?_, rfl, ?_⟩
  · cases other with
    | terrain maxFeatureRadius heightSample =>
        simp only [l_body_get_altitude_rel_to]
        split_ifs <;> linarith
    | nonTerrain => exact h
  · intro maxFeatureRadius heightSample hfar
    simp only [l_body_get_altitude_rel_to, not_le.mpr hfar, if_false, reduceIte]
    rw [if_neg (by linarith)]
    ring

/-- C9 witness: center distance 5 against a terrain body of maximum feature
radius 1 (so the height sample 10 is discarded) yields altitude 5 ≥ 0. -/
theorem get_altitude_rel_to_nonneg_witness :
    0 ≤ l_body_get_altitude_rel_to 5 (AltitudeOther.terrain 1 10) ∧
    l_body_get_altitude_rel_to 5 AltitudeOther.nonTerrain = 5 ∧
    (∀ maxFeatureRadius heightSample : ℚ, 3 * maxFeatureRadius < 5 →
      l_body_get_altitude_rel_to 5
        (AltitudeOther.terrain maxFeatureRadius heightSample) = 5) :=
  get_altitude_rel_to_nonneg 5 (AltitudeOther.terrain 1 10) (by norm_num)

/-- C10: the body-importance comparison is irreflexive — for every body,
`IsMoreImportantThan` applied to the body and itself returns `false`,
whatever the external comparison on distinct bodies does. -/
theorem is_more_important_than_irrefl (cmp : Nat → Nat → Bool) (b : Nat) :
    l_body_is_more_important_than cmp b b = false := by
  simp [l_body_is_more_important_than]

end Pioneer
